import Mathlib

/-!
Shallow embedding of the Galamidas Phase-2 trading-journal dashboard
(src/app.py and src/streamlit_app.py).

External services (Supabase, Databento, the auth endpoint) are modelled as
oracles: record fields holding the outcome of each call, `Except String α`
for a call that can raise (the `String` is the exception message).  The
Streamlit UI calls `st.info` / `st.success` / `st.warning` / `st.error` are
modelled as a list of `Msg` values produced by each function, and
`st.session_state` as an association list from keys to users.  Python
truthiness of an optional string (`None` and the empty string are falsy)
is modelled by `truthy`.
-/

namespace Phase2

/-- A Streamlit UI notification, tagged by which `st.*` call produced it. -/
inductive Msg where
  | info (s : String)
  | success (s : String)
  | warning (s : String)
  | error (s : String)
deriving DecidableEq, Repr

/-- A trade row.  The code in src only reads the "symbol" field of a trade
dict; the other columns are abstracted into a numeric identifier. -/
structure Trade where
  id : Nat
  symbol : String
deriving DecidableEq, Repr

/-- A journal row: free-text entry keyed to a trade. -/
structure Journal where
  trade_id : Nat
  text : String
deriving DecidableEq, Repr

/-- One OHLCV candle (timestamp, open, high, low, close, volume). -/
structure Candle where
  ts : Int
  op : Int
  hi : Int
  lo : Int
  cl : Int
  vol : Int
deriving DecidableEq, Repr

/-- A per-symbol table of candles, as returned by
`databento_client.get_candlestick_data` or read from the sample CSV. -/
abbrev MarketTable := List Candle

/-- An authenticated user, as returned by the Supabase auth endpoint. -/
structure User where
  email : String
deriving DecidableEq, Repr

/-- Python truthiness of an optional string: `None` and `""` are falsy. -/
def truthy : Option String → Bool
  | none => false
  | some s => s ≠ ""

/-! ### Configuration (src/app.py, config/config.py)

`config/config.py` is not part of src; the `Config` predicates are
modelled from the spec. -/

/-- The environment variables read by the application (populated by
`load_dotenv` from a .env file); `none` means unset. -/
structure Env where
  supabase_url : Option String
  supabase_key : Option String
  topstep_api_key : Option String
  databento_api_key : Option String
  openai_api_key : Option String
  openai_model : Option String
deriving DecidableEq, Repr

/-- Modelled from the spec: `Config.is_supabase_configured`
(config/config.py is not in src).  A service is configured when its
required keys are present and non-empty. -/
def is_supabase_configured (env : Env) : Bool :=
  truthy env.supabase_url && truthy env.supabase_key

/-- Modelled from the spec: `Config.is_topstep_configured`
(config/config.py is not in src). -/
def is_topstep_configured (env : Env) : Bool :=
  truthy env.topstep_api_key

/-- Modelled from the spec: `Config.is_databento_configured`
(config/config.py is not in src). -/
def is_databento_configured (env : Env) : Bool :=
  truthy env.databento_api_key

/-- Modelled from the spec: `Config.is_openai_configured`
(config/config.py is not in src). -/
def is_openai_configured (env : Env) : Bool :=
  truthy env.openai_api_key

/-- Modelled from the spec: `Config.validate` (config/config.py is not in
src) returns the names of the required configuration values that are
missing; `main` joins them into an error banner. -/
def validate (env : Env) : List String :=
  (if is_supabase_configured env then [] else ["SUPABASE_URL", "SUPABASE_KEY"]) ++
  (if is_topstep_configured env then [] else ["TOPSTEP_API_KEY"]) ++
  (if is_databento_configured env then [] else ["DATABENTO_API_KEY"]) ++
  (if is_openai_configured env then [] else ["OPENAI_API_KEY"])

/-! ### Client construction (src/app.py lines 28-36) -/

/-- `SupabaseClient(Config.SUPABASE_URL, Config.SUPABASE_KEY)`: the client
object, holding the credentials it was constructed with. -/
structure SupabaseClient where
  url : Option String
  key : Option String
deriving DecidableEq, Repr

/-- `TopStepClient(Config.TOPSTEP_API_KEY)`. -/
structure TopStepClient where
  api_key : Option String
deriving DecidableEq, Repr

/-- `DatabentoClient(Config.DATABENTO_API_KEY)`. -/
structure DatabentoClient where
  api_key : Option String
deriving DecidableEq, Repr

/-- `NLPProcessor(Config.OPENAI_API_KEY, Config.OPENAI_MODEL)`. -/
structure NLPProcessor where
  api_key : Option String
  model : Option String
deriving DecidableEq, Repr

/-- The tuple returned by `init_clients` in src/app.py. -/
structure Clients where
  supabase_client : Option SupabaseClient
  topstep_client : Option TopStepClient
  databento_client : Option DatabentoClient
  nlp_processor : Option NLPProcessor
deriving DecidableEq, Repr

/-- src/app.py `init_clients`: each client is constructed exactly when its
configuration predicate holds, and is `None` otherwise. -/
def init_clients (env : Env) : Clients where
  supabase_client :=
    if is_supabase_configured env then some ⟨env.supabase_url, env.supabase_key⟩ else none
  topstep_client :=
    if is_topstep_configured env then some ⟨env.topstep_api_key⟩ else none
  databento_client :=
    if is_databento_configured env then some ⟨env.databento_api_key⟩ else none
  nlp_processor :=
    if is_openai_configured env then some ⟨env.openai_api_key, env.openai_model⟩ else none

/-! ### Secrets resolution and client construction (src/streamlit_app.py lines 21-47) -/

/-- The result of the try/except block at src/streamlit_app.py lines 21-29:
either the three configuration values, or an uncaught exception.  When a
Streamlit secrets store exists (`secrets = some m`), the values are read
from it and a missing key raises `KeyError` (which the `except
FileNotFoundError` clause does not catch); when no secrets store exists,
`st.secrets[...]` raises `FileNotFoundError` and the values are read from
the environment instead. -/
def resolveConfig (secrets : Option (String → Option String))
    (env : String → Option String) :
    Except String (Option String × Option String × Option String) :=
  match secrets with
  | none =>
      .ok (env "SUPABASE_URL", env "SUPABASE_KEY", env "DATABENTO_API_KEY")
  | some m =>
      match m "SUPABASE_URL", m "SUPABASE_KEY", m "DATABENTO_API_KEY" with
      | some u, some k, some d => .ok (some u, some k, some d)
      | _, _, _ => .error "KeyError"

/-- The Supabase client of src/streamlit_app.py (`create_client`). -/
structure Client where
  url : Option String
  key : Option String
deriving DecidableEq, Repr

/-- `db.Historical(databento_api_key)` of src/streamlit_app.py. -/
structure Historical where
  api_key : Option String
deriving DecidableEq, Repr

/-- src/streamlit_app.py `init_supabase_client`: returns the client when
both `supabase_url` and `supabase_key` are truthy, `None` otherwise. -/
def init_supabase_client (supabase_url supabase_key : Option String) : Option Client :=
  if truthy supabase_url && truthy supabase_key then
    some ⟨supabase_url, supabase_key⟩
  else none

/-- src/streamlit_app.py `init_databento_client`: returns the client when
`databento_api_key` is truthy, `None` otherwise. -/
def init_databento_client (databento_api_key : Option String) : Option Historical :=
  if truthy databento_api_key then some ⟨databento_api_key⟩ else none

/-! ### Sample data (src/utils/sample_data_generator.py, not in src) -/

/-- Modelled from the spec: `SampleDataGenerator.generate_trades`
(src/utils/sample_data_generator.py is not in src).  The spec records only
that 100 sample trades are generated; the rows themselves are arbitrary. -/
def generate_trades (num_trades : Nat) : List Trade :=
  (List.range num_trades).map (fun i => { id := i, symbol := "MES" })

/-- Modelled from the spec: `SampleDataGenerator.generate_journals`
(src/utils/sample_data_generator.py is not in src).  The spec records only
that the journals are generated from the trades. -/
def generate_journals (trades : List Trade) : List Journal :=
  trades.map (fun t => { trade_id := t.id, text := "sample journal" })

/-! ### Data loading (src/app.py lines 39-83) -/

/-- The outcomes of the external calls `load_data` can make during one
run: the two Supabase fetches, the Databento candlestick endpoint
(keyed by symbol and date window, in days), the current time (in days),
and the sample CSV (`none` when the file does not exist). -/
structure DataOracle where
  fetch_trades : Except String (List Trade)
  fetch_journals : Except String (List Journal)
  get_candlestick_data : String → Int → Int → Except String MarketTable
  sample_csv : Option MarketTable
  now : Int
deriving Inhabited

/-- The `list(set([trade["symbol"] for trade in trades]))` expression at
src/app.py line 72: the distinct symbols occurring in the trades. -/
def unique_symbols (trades : List Trade) : List String :=
  (trades.map (fun t => t.symbol)).dedup

/-- Result of the per-symbol market-data loop: the accumulated
`market_data` dict, the UI messages, and the log of API calls made
(symbol, start date, end date). -/
structure MarketFetch where
  market_data : List (String × MarketTable)
  msgs : List Msg
  calls : List (String × Int × Int)
deriving DecidableEq, Repr

/-- The `for symbol in unique_symbols` loop at src/app.py lines 73-81:
one `get_candlestick_data` call per symbol over the window
`[now - 30 days, now]`; a successful call stores the table under the
symbol, a failing call surfaces an error message and the loop continues. -/
def fetchMarket (get : String → Int → Int → Except String MarketTable)
    (startD endD : Int) : List String → MarketFetch
  | [] => ⟨[], [], []⟩
  | sym :: rest =>
    let mf := fetchMarket get startD endD rest
    match get sym startD endD with
    | .ok tbl =>
        ⟨(sym, tbl) :: mf.market_data, mf.msgs, (sym, startD, endD) :: mf.calls⟩
    | .error e =>
        ⟨mf.market_data,
         Msg.error ("Error fetching market data for " ++ sym ++ " from Databento: " ++ e) :: mf.msgs,
         (sym, startD, endD) :: mf.calls⟩

/-- The value returned by `load_data`, together with the UI messages it
emitted and the log of candlestick API calls it made. -/
structure LoadResult where
  trades : List Trade
  journals : List Journal
  market_data : List (String × MarketTable)
  msgs : List Msg
  calls : List (String × Int × Int)
deriving DecidableEq, Repr

/-- src/app.py `load_data`.  `supabase` / `databento` record whether the
corresponding client is non-`None`.  The sample branch generates 100
trades and their journals and loads the MES CSV when present; the live
branch fetches trades and journals from Supabase inside one try/except
(so a journals failure keeps the already-fetched trades), then fetches
market data once per distinct symbol when the Databento client exists and
the trades list is non-empty. -/
def load_data (use_sample_data : Bool) (supabase databento : Bool)
    (o : DataOracle) : LoadResult :=
  if use_sample_data then
    let trades := generate_trades 100
    let journals := generate_journals trades
    match o.sample_csv with
    | some tbl =>
        ⟨trades, journals, [("MES", tbl)], [Msg.info "Loading sample data..."], []⟩
    | none =>
        ⟨trades, journals, [],
         [Msg.info "Loading sample data...",
          Msg.warning "Sample market data not found at ./data/sample_market_data_MES.csv. Please run sample_data_generator.py."],
         []⟩
  else
    let fetched : List Trade × List Journal × List Msg :=
      if supabase then
        match o.fetch_trades with
        | .error e => ([], [], [Msg.error ("Error fetching data from Supabase: " ++ e)])
        | .ok t =>
          match o.fetch_journals with
          | .error e => (t, [], [Msg.error ("Error fetching data from Supabase: " ++ e)])
          | .ok j => (t, j, [Msg.success "Data fetched from Supabase."])
      else ([], [], [Msg.warning "Supabase client not configured. Cannot fetch live data."])
    let trades := fetched.1
    let journals := fetched.2.1
    let msgs := fetched.2.2
    if databento && !trades.isEmpty then
      let mf := fetchMarket o.get_candlestick_data (o.now - 30) o.now (unique_symbols trades)
      ⟨trades, journals, mf.market_data, msgs ++ mf.msgs, mf.calls⟩
    else
      ⟨trades, journals, [], msgs, []⟩

/-! ### Main flow (src/app.py lines 86-145) -/

/-- src/app.py line 118: whether any of the four APIs is configured. -/
def is_any_api_configured (env : Env) : Bool :=
  is_supabase_configured env || is_topstep_configured env ||
  is_databento_configured env || is_openai_configured env

/-- The default value of the "Use Sample Data" checkbox at src/app.py
line 125: on exactly when no API is configured. -/
def defaultUseSample (env : Env) : Bool :=
  !is_any_api_configured env

/-- The data-loading step of `main` when the checkbox is left at its
default: `load_data(use_sample_data)` with the clients from
`init_clients`. -/
def main_load (env : Env) (o : DataOracle) : LoadResult :=
  load_data (defaultUseSample env)
    (init_clients env).supabase_client.isSome
    (init_clients env).databento_client.isSome o

/-- The UI messages of one default `main` run: the missing-configuration
error banner (src/app.py lines 95-98) followed by the messages from
`load_data`. -/
def mainMessages (env : Env) (o : DataOracle) : List Msg :=
  (if (validate env).isEmpty then []
   else [Msg.error ("⚠️ Missing required configuration: " ++
          String.intercalate ", " (validate env))]) ++
  (main_load env o).msgs

/-! ### Authentication (src/streamlit_app.py lines 49-79) -/

/-- `st.session_state`, as an association list from keys to users (the
only values the shown code stores are users, under the key "user"). -/
abbrev SessionState := List (String × User)

/-- Dict deletion: remove every binding of `k`. -/
def eraseKey (s : SessionState) (k : String) : SessionState :=
  s.filter (fun p => p.1 ≠ k)

/-- Dict assignment: bind `k` to `u`, replacing any previous binding. -/
def setKey (s : SessionState) (k : String) (u : User) : SessionState :=
  (k, u) :: eraseKey s k

/-- `k in st.session_state`. -/
def hasKey (s : SessionState) (k : String) : Bool :=
  s.any (fun p => p.1 = k)

/-- The value bound to `k`, if any. -/
def lookupKey (s : SessionState) (k : String) : Option User :=
  (s.find? (fun p => p.1 = k)).map Prod.snd

/-- What an auth function returns and does: the `(user, error)` pair, the
session state after the call, and the UI messages. -/
structure AuthResult where
  user : Option User
  err : Option String
  state : SessionState
  msgs : List Msg
deriving DecidableEq, Repr

/-- src/streamlit_app.py `sign_up`.  `client` records whether the Supabase
client is non-`None`; `auth` is the outcome of
`supabase.auth.sign_up(...)`.  The session state is never written. -/
def sign_up (client : Bool) (auth : Except String User) (s : SessionState) : AuthResult :=
  if client then
    match auth with
    | .ok u =>
        ⟨some u, none, s,
         [Msg.success "Sign-up successful! Please check your email to verify your account."]⟩
    | .error e => ⟨none, some e, s, []⟩
  else
    ⟨none, some "Supabase client not initialized.", s,
     [Msg.error "Supabase client is not initialized. Check your API keys."]⟩

/-- src/streamlit_app.py `sign_in`.  On success the user is stored in the
session state under "user"; on an exception or an uninitialized client the
state is unchanged. -/
def sign_in (client : Bool) (auth : Except String User) (s : SessionState) : AuthResult :=
  if client then
    match auth with
    | .ok u =>
        ⟨some u, none, setKey s "user" u, [Msg.success "Signed in successfully!"]⟩
    | .error e => ⟨none, some e, s, []⟩
  else
    ⟨none, some "Supabase client not initialized.", s,
     [Msg.error "Supabase client is not initialized. Check your API keys."]⟩

/-- The state and messages of src/streamlit_app.py `sign_out`: delete the
"user" key when present, then show a success message.  It is total: the
`if` guard makes the `del` safe when no user is signed in. -/
structure SignOutResult where
  state : SessionState
  msgs : List Msg
deriving DecidableEq, Repr

/-- src/streamlit_app.py `sign_out`. -/
def sign_out (s : SessionState) : SignOutResult :=
  ⟨eraseKey s "user", [Msg.success "You have been signed out."]⟩

/-! ### The authentication state machine (claim C6) -/

/-- One auth action the UI can trigger, with the auth-service outcome for
the sign-in / sign-up calls. -/
inductive AuthAction where
  | signInA (auth : Except String User)
  | signUpA (auth : Except String User)
  | signOutA
deriving Inhabited

/-- The session state after one auth action. -/
def authStep (client : Bool) (s : SessionState) : AuthAction → SessionState
  | .signInA auth => (sign_in client auth s).state
  | .signUpA auth => (sign_up client auth s).state
  | .signOutA => (sign_out s).state

/-- The session state after a sequence of auth actions. -/
def runAuth (client : Bool) (s : SessionState) (acts : List AuthAction) : SessionState :=
  acts.foldl (authStep client) s

/-- The claim's characterisation of one action's effect on whether a user
is present: a successful sign-in (client initialized, auth succeeded) sets
it, a sign-out clears it, everything else leaves it. -/
def specUpdate (client b : Bool) : AuthAction → Bool
  | .signOutA => false
  | .signInA (.ok _) => client || b
  | .signInA (.error _) => b
  | .signUpA _ => b

/-- The claim's characterisation of when a user is present after a
sequence of auth actions, starting from presence `b`: exactly when the
most recent successful auth action was a sign-in not followed by a
sign-out. -/
def lastSignInActive (client : Bool) : Bool → List AuthAction → Bool
  | b, [] => b
  | b, a :: rest => lastSignInActive client (specUpdate client b a) rest

/-! ### Concrete runs used to instantiate the theorems -/

/-- An environment with every key set. -/
def envAll : Env :=
  ⟨some "url", some "key", some "ts-key", some "db-key", some "oa-key", some "gpt"⟩

/-- An environment with no key set. -/
def envNone : Env := ⟨none, none, none, none, none, none⟩

/-- An environment where only the TopStep key is set. -/
def envTopOnly : Env := ⟨none, none, some "ts-key", none, none, none⟩

/-- An oracle whose every call succeeds with empty data. -/
def oEmpty : DataOracle := ⟨.ok [], .ok [], fun _ _ _ => .ok [], none, 0⟩

/-- An oracle returning one MES trade and one journal, candlestick calls
succeeding with an empty table. -/
def oOne : DataOracle :=
  ⟨.ok [⟨0, "MES"⟩], .ok [⟨0, "note"⟩], fun _ _ _ => .ok [], none, 0⟩

/-- A concrete secrets store holding the same value for every key. -/
def secretsConst : String → Option String := fun _ => some "from-secrets"

/-- A concrete environment-variable lookup. -/
def envConst : String → Option String := fun _ => some "from-env"

/-! ## Helper lemmas -/

theorem hasKey_eraseKey (s : SessionState) (k : String) :
    hasKey (eraseKey s k) k = false := by
  simp only [hasKey, eraseKey, List.any_eq_false, List.mem_filter]
  intro p hp
  simpa using hp.2

theorem hasKey_setKey (s : SessionState) (k : String) (u : User) :
    hasKey (setKey s k u) k = true := by
  simp [hasKey, setKey]

theorem eraseKey_eraseKey (s : SessionState) (k : String) :
    eraseKey (eraseKey s k) k = eraseKey s k := by
  simp only [eraseKey, List.filter_filter]
  congr 1
  funext a
  exact Bool.and_self _

theorem lookupKey_setKey (s : SessionState) (k : String) (u : User) :
    lookupKey (setKey s k u) k = some u := by
  simp [lookupKey, setKey, List.find?]

theorem fetchMarket_calls (g : String → Int → Int → Except String MarketTable)
    (a b : Int) (l : List String) :
    (fetchMarket g a b l).calls = l.map (fun sym => (sym, a, b)) := by
  induction l with
  | nil => rfl
  | cons sym rest ih =>
    cases h : g sym a b <;> simp [fetchMarket, h, ih]

theorem fetchMarket_keys (g : String → Int → Int → Except String MarketTable)
    (a b : Int) (l : List String) :
    ∀ k ∈ (fetchMarket g a b l).market_data.map Prod.fst, k ∈ l := by
  induction l with
  | nil => simp [fetchMarket]
  | cons sym rest ih =>
    intro k hk
    cases h : g sym a b with
    | ok tbl =>
      simp only [fetchMarket, h, List.map_cons, List.mem_cons] at hk
      rcases hk with hk | hk
      · simp [hk]
      · exact List.mem_cons_of_mem _ (ih k hk)
    | error e =>
      simp only [fetchMarket, h] at hk
      exact List.mem_cons_of_mem _ (ih k hk)

theorem fetchMarket_allError (e : String) (a b : Int) (l : List String) :
    (fetchMarket (fun _ _ _ => .error e) a b l).market_data = [] ∧
    (fetchMarket (fun _ _ _ => .error e) a b l).msgs =
      l.map (fun sym =>
        Msg.error ("Error fetching market data for " ++ sym ++ " from Databento: " ++ e)) := by
  induction l with
  | nil => exact ⟨rfl, rfl⟩
  | cons sym rest ih => simp [fetchMarket, ih.1, ih.2]

/-! ## Claim theorems -/

/-- C5: client construction is guarded by configuration.  In both entry
points, each initialization step returns a constructed client if and only
if the configuration predicate for that service holds (the required keys
are present), and returns `None` otherwise. -/
theorem client_construction_guarded (env : Env) (u k d : Option String) :
    ((init_clients env).supabase_client.isSome = is_supabase_configured env) ∧
    ((init_clients env).topstep_client.isSome = is_topstep_configured env) ∧
    ((init_clients env).databento_client.isSome = is_databento_configured env) ∧
    ((init_clients env).nlp_processor.isSome = is_openai_configured env) ∧
    ((init_supabase_client u k).isSome = (truthy u && truthy k)) ∧
    ((init_databento_client d).isSome = truthy d) := by
  refine ⟨?_, ?_, ?_, ?_, ?_, ?_⟩ <;>
    simp only [init_clients, init_supabase_client, init_databento_client] <;>
    split <;> simp_all

/-- C8: a successful sign-up does not sign the user in.  For every client
state, auth outcome and session state, `sign_up` returns the session state
unchanged (it never writes the "user" key), so after `sign_up` alone the
presence of the "user" key — which selects the logged-out view — is what
it was before. -/
theorem sign_up_does_not_sign_in (client : Bool) (auth : Except String User)
    (s : SessionState) :
    (sign_up client auth s).state = s ∧
    hasKey (sign_up client auth s).state "user" = hasKey s "user" := by
  have h : (sign_up client auth s).state = s := by
    cases client <;> cases auth <;> simp [sign_up]
  exact ⟨h, by rw [h]⟩

/-- C10: `sign_out` is total and idempotent.  On every session state it
succeeds (producing only a success message), the resulting state has no
"user" key, and running it twice gives the same result as running it
once. -/
theorem sign_out_total_idempotent (s : SessionState) :
    hasKey (sign_out s).state "user" = false ∧
    sign_out ((sign_out s).state) = sign_out s ∧
    (sign_out s).msgs = [Msg.success "You have been signed out."] := by
  refine ⟨hasKey_eraseKey s "user", ?_, rfl⟩
  simp [sign_out, eraseKey_eraseKey]

/-- C6: the authentication state machine.  A successful `sign_in` stores
the returned user in the session state under "user"; `sign_out` removes
the key; a failed `sign_in` (auth exception or uninitialized client)
leaves the state unchanged.  Hence after any sequence of auth actions the
"user" key is present exactly when the most recent successful auth action
was a sign-in not followed by a sign-out (`lastSignInActive`). -/
theorem auth_session_invariant (client : Bool) :
    (∀ (u : User) (s : SessionState),
        (sign_in true (.ok u) s).state = setKey s "user" u ∧
        hasKey (sign_in true (.ok u) s).state "user" = true ∧
        lookupKey (sign_in true (.ok u) s).state "user" = some u) ∧
    (∀ s : SessionState, hasKey (sign_out s).state "user" = false) ∧
    (∀ (e : String) (s : SessionState), (sign_in client (.error e) s).state = s) ∧
    (∀ (auth : Except String User) (s : SessionState), (sign_in false auth s).state = s) ∧
    (∀ (s : SessionState) (acts : List AuthAction),
        hasKey (runAuth client s acts) "user"
          = lastSignInActive client (hasKey s "user") acts) := by
  refine ⟨?_, ?_, ?_, ?_, ?_⟩
  · intro u s
    exact ⟨rfl, hasKey_setKey s "user" u, lookupKey_setKey s "user" u⟩
  · intro s
    exact hasKey_eraseKey s "user"
  · intro e s
    cases client <;> simp [sign_in]
  · intro auth s
    cases auth <;> simp [sign_in]
  · intro s acts
    induction acts generalizing s with
    | nil => rfl
    | cons a rest ih =>
      have hstep : hasKey (authStep client s a) "user"
          = specUpdate client (hasKey s "user") a := by
        cases a with
        | signOutA => exact hasKey_eraseKey s "user"
        | signInA auth =>
          cases auth <;> cases client <;>
            simp [authStep, sign_in, specUpdate, hasKey_setKey]
        | signUpA auth =>
          cases auth <;> cases client <;> simp [authStep, sign_up, specUpdate]
      calc hasKey (runAuth client s (a :: rest)) "user"
          = hasKey (runAuth client (authStep client s a) rest) "user" := rfl
        _ = lastSignInActive client (hasKey (authStep client s a) "user") rest :=
            ih (authStep client s a)
        _ = lastSignInActive client (specUpdate client (hasKey s "user") a) rest := by
            rw [hstep]
        _ = lastSignInActive client (hasKey s "user") (a :: rest) := rfl

/-- C1: every external-service call (trades fetch, journals fetch,
candlestick fetch, sign-up, sign-in) is wrapped: an exception is caught,
its message surfaced as a UI notification or returned as an error string,
and execution continues with the partial data already obtained, the
unfetched parts staying empty.  In particular: a failing trades fetch
yields empty trades and journals plus an error notification; a journals
failure after a successful trades fetch keeps the fetched trades; a
failing sign-up or sign-in returns the message as the error string with
nothing raised; failing candlestick calls leave `market_data` empty and
surface one error notification per symbol.  All four embedded functions
are total, so no exception propagates out of them. -/
theorem external_exceptions_caught (e : String) (dab : Bool)
    (j : Except String (List Journal)) (t : List Trade) (js : List Journal)
    (c : String → Int → Int → Except String MarketTable)
    (sc : Option MarketTable) (n : Int) (s : SessionState)
    (auth : Except String User) :
    (load_data false true dab ⟨.error e, j, c, sc, n⟩
        = ⟨[], [], [], [Msg.error ("Error fetching data from Supabase: " ++ e)], []⟩) ∧
    ((load_data false true dab ⟨.ok t, .error e, c, sc, n⟩).trades = t ∧
     (load_data false true dab ⟨.ok t, .error e, c, sc, n⟩).journals = [] ∧
     Msg.error ("Error fetching data from Supabase: " ++ e)
       ∈ (load_data false true dab ⟨.ok t, .error e, c, sc, n⟩).msgs) ∧
    (sign_up true (.error e) s = ⟨none, some e, s, []⟩) ∧
    (sign_in true (.error e) s = ⟨none, some e, s, []⟩) ∧
    (sign_up false auth s = ⟨none, some "Supabase client not initialized.", s,
        [Msg.error "Supabase client is not initialized. Check your API keys."]⟩) ∧
    (sign_in false auth s = ⟨none, some "Supabase client not initialized.", s,
        [Msg.error "Supabase client is not initialized. Check your API keys."]⟩) ∧
    ((load_data false true true ⟨.ok t, .ok js, fun _ _ _ => .error e, sc, n⟩).market_data
        = []) ∧
    ((load_data false true true ⟨.ok t, .ok js, fun _ _ _ => .error e, sc, n⟩).msgs
        = Msg.success "Data fetched from Supabase." ::
          (unique_symbols t).map (fun sym =>
            Msg.error ("Error fetching market data for " ++ sym ++ " from Databento: " ++ e))) := by
  refine ⟨?_, ?_, ?_, ?_, ?_, ?_, ?_, ?_⟩
  · simp [load_data]
  · refine ⟨?_, ?_, ?_⟩ <;>
      · simp only [load_data]
        rw [if_neg (by decide : ¬(false = true))]
        by_cases hg : dab = true ∧ ¬t = [] <;> simp [hg]
  · rfl
  · rfl
  · cases auth <;> rfl
  · cases auth <;> rfl
  · cases t with
    | nil => simp [load_data]
    | cons tr rest =>
      simp [load_data, (fetchMarket_allError e (n - 30) n (unique_symbols (tr :: rest))).1]
  · cases t with
    | nil => simp [load_data, unique_symbols]
    | cons tr rest =>
      simp [load_data, (fetchMarket_allError e (n - 30) n (unique_symbols (tr :: rest))).2]

/-- C4: in the live-data path, with the Databento client configured and a
non-empty trades fetch, `load_data` makes exactly one candlestick call per
distinct symbol occurring in the trades: the symbols called are exactly
`unique_symbols`, the call list has no duplicate symbol, a symbol is
called iff it occurs in the trades, and every call uses the fixed window
of 30 days ending at the current time. -/
theorem one_call_per_distinct_symbol (o : DataOracle) (t : List Trade)
    (ht : o.fetch_trades = .ok t) (hne : t ≠ []) :
    ((load_data false true true o).calls.map (fun c => c.1) = unique_symbols t) ∧
    ((load_data false true true o).calls.map (fun c => c.1)).Nodup ∧
    (∀ sym : String,
        sym ∈ (load_data false true true o).calls.map (fun c => c.1) ↔
        sym ∈ t.map (fun tr => tr.symbol)) ∧
    (∀ c ∈ (load_data false true true o).calls, c.2.1 = o.now - 30 ∧ c.2.2 = o.now) := by
  obtain ⟨tr, rest, rfl⟩ : ∃ tr rest, t = tr :: rest := by
    cases t with
    | nil => exact absurd rfl hne
    | cons tr rest => exact ⟨tr, rest, rfl⟩
  have hcalls : (load_data false true true o).calls
      = (unique_symbols (tr :: rest)).map (fun sym => (sym, o.now - 30, o.now)) := by
    cases hj : o.fetch_journals <;>
      simp [load_data, ht, hj, fetchMarket_calls]
  have hfst : (load_data false true true o).calls.map (fun c => c.1)
      = unique_symbols (tr :: rest) := by
    have hcomp : ((fun c : String × Int × Int => c.1) ∘ fun sym => (sym, o.now - 30, o.now))
        = id := rfl
    rw [hcalls, List.map_map, hcomp, List.map_id]
  refine ⟨hfst, ?_, ?_, ?_⟩
  · rw [hfst]
    exact List.nodup_dedup _
  · intro sym
    rw [hfst]
    exact List.mem_dedup
  · intro c hc
    rw [hcalls] at hc
    obtain ⟨sym, _, rfl⟩ := List.mem_map.mp hc
    exact ⟨rfl, rfl⟩

/-- C9: market data is fetched only when the Databento client exists and
the fetched trades list is non-empty.  Without a Databento client the
returned `market_data` is empty; when the trades fetch fails or returns
zero rows it is empty even with Databento fully configured; and every key
of the returned `market_data` is a symbol occurring in the returned
trades. -/
theorem market_data_requires_trades (sup dab : Bool) (e : String)
    (j : Except String (List Journal))
    (c : String → Int → Int → Except String MarketTable)
    (sc : Option MarketTable) (n : Int) (o : DataOracle) :
    ((load_data false sup false o).market_data = []) ∧
    ((load_data false true true ⟨.error e, j, c, sc, n⟩).market_data = []) ∧
    ((load_data false true true ⟨.ok [], j, c, sc, n⟩).market_data = []) ∧
    (∀ k, k ∈ (load_data false sup dab o).market_data.map Prod.fst →
        k ∈ (load_data false sup dab o).trades.map (fun tr => tr.symbol)) := by
  refine ⟨?_, ?_, ?_, ?_⟩
  · simp only [load_data]; simp
  · simp [load_data]
  · cases j <;> simp [load_data]
  · intro k
    by_cases hsup : sup = true
    case neg =>
      have hsup2 : sup = false := by simpa using hsup
      subst hsup2
      intro hk
      have hmd : (load_data false false dab o).market_data = [] := by
        simp [load_data]
      rw [hmd] at hk
      simp at hk
    case pos =>
      subst hsup
      cases ht : o.fetch_trades with
      | error e2 =>
        intro hk
        have hmd : (load_data false true dab o).market_data = [] := by
          simp [load_data, ht]
        rw [hmd] at hk
        simp at hk
      | ok t =>
        by_cases hg : dab = true ∧ ¬t = []
        case pos =>
          have hmd : (load_data false true dab o).market_data
              = (fetchMarket o.get_candlestick_data (o.now - 30) o.now
                  (unique_symbols t)).market_data := by
            cases hj : o.fetch_journals <;> simp [load_data, ht, hj, hg.1, hg.2]
          have htr : (load_data false true dab o).trades = t := by
            cases hj : o.fetch_journals <;> simp [load_data, ht, hj, hg.1, hg.2]
          intro hk
          rw [hmd] at hk
          rw [htr]
          exact List.mem_dedup.mp
            (fetchMarket_keys o.get_candlestick_data (o.now - 30) o.now
              (unique_symbols t) k hk)
        case neg =>
          intro hk
          have hmd : (load_data false true dab o).market_data = [] := by
            cases hj : o.fetch_journals <;> simp [load_data, ht, hj, hg]
          rw [hmd] at hk
          simp at hk

theorem one_call_per_distinct_symbol_witness :
    (oOne.fetch_trades = .ok [⟨0, "MES"⟩] ∧ ([⟨0, "MES"⟩] : List Trade) ≠ []) ∧
    (load_data false true true oOne).calls.map (fun c => c.1)
      = unique_symbols [⟨0, "MES"⟩] :=
  ⟨⟨rfl, by decide⟩,
   (one_call_per_distinct_symbol oOne [⟨0, "MES"⟩] rfl (by decide)).1⟩

theorem market_data_requires_trades_witness :
    ("MES" ∈ (load_data false true true oOne).market_data.map Prod.fst) ∧
    ("MES" ∈ (load_data false true true oOne).trades.map (fun tr => tr.symbol)) :=
  ⟨by decide,
   (market_data_requires_trades true true "e" (.ok []) (fun _ _ _ => .ok []) none 0
      oOne).2.2.2 "MES" (by decide)⟩

/-- C2 counterexample: in the run where only the TopStep key is configured
(so Supabase is missing), the default checkbox selects live data, the UI
shows a warning about the missing Supabase configuration, and the loader
does NOT fall back to the 100 sample trades — so a missing configuration
value is neither silent nor compensated by sample data. -/
theorem config_missing_silent_cex :
    defaultUseSample envTopOnly = false ∧
    Msg.warning "Supabase client not configured. Cannot fetch live data."
      ∈ (main_load envTopOnly oEmpty).msgs ∧
    (main_load envTopOnly oEmpty).trades ≠ generate_trades 100 := by
  refine ⟨by decide, by decide, by decide⟩

/-- C2 amended: when a required configuration value is missing the
corresponding client is not constructed and no exception is raised, but
the behaviour is not silent — the live path shows a warning when Supabase
is unconfigured — and sample data is not an automatic per-feature
fallback: the sample branch is selected by the checkbox, whose default is
on exactly when no API at all is configured. -/
theorem config_missing_disables_feature (env : Env) (o : DataOracle) (dab : Bool)
    (h : is_supabase_configured env = false) :
    (init_clients env).supabase_client = none ∧
    (load_data false (is_supabase_configured env) dab o).trades = [] ∧
    Msg.warning "Supabase client not configured. Cannot fetch live data."
      ∈ (load_data false (is_supabase_configured env) dab o).msgs ∧
    (load_data false true false o).market_data = [] ∧
    defaultUseSample env = !is_any_api_configured env := by
  refine ⟨?_, ?_, ?_, ?_, rfl⟩
  · simp [init_clients, h]
  · rw [h]; simp [load_data]
  · rw [h]; simp [load_data]
  · cases ht : o.fetch_trades with
    | error e => simp [load_data, ht]
    | ok t => cases hj : o.fetch_journals <;> simp [load_data, ht, hj]

theorem config_missing_disables_feature_witness :
    (is_supabase_configured envNone = false) ∧
    (init_clients envNone).supabase_client = none :=
  ⟨rfl, (config_missing_disables_feature envNone oEmpty true rfl).1⟩

/-- C3: with valid credentials configured and successful fetches, the
default `main` run loads exactly the rows returned by the client; with no
credentials configured at all, the default run shows the
missing-configuration banner plus the sample-data notice and uses
generated sample data: 100 generated trades and the journals generated
from them. -/
theorem credentials_rows_or_sample (env1 env2 : Env) (o1 o2 : DataOracle)
    (t : List Trade) (j : List Journal)
    (h1 : is_supabase_configured env1 = true)
    (ht : o1.fetch_trades = .ok t) (hj : o1.fetch_journals = .ok j)
    (h2 : is_any_api_configured env2 = false) :
    ((main_load env1 o1).trades = t ∧ (main_load env1 o1).journals = j) ∧
    ((main_load env2 o2).trades = generate_trades 100 ∧
     (main_load env2 o2).journals = generate_journals (generate_trades 100) ∧
     Msg.info "Loading sample data..." ∈ (main_load env2 o2).msgs ∧
     Msg.error ("⚠️ Missing required configuration: " ++
         String.intercalate ", " (validate env2)) ∈ mainMessages env2 o2) := by
  constructor
  · have hdef : defaultUseSample env1 = false := by
      simp [defaultUseSample, is_any_api_configured, h1]
    have hsome : (init_clients env1).supabase_client.isSome = true := by
      simp [init_clients, h1]
    have hload : ∀ db : Bool,
        (load_data false true db o1).trades = t ∧
        (load_data false true db o1).journals = j := by
      intro db
      by_cases hg : db = true ∧ ¬t = []
      · constructor <;> simp [load_data, ht, hj, hg.1, hg.2]
      · constructor <;> simp [load_data, ht, hj, hg]
    have := hload (init_clients env1).databento_client.isSome
    simpa [main_load, hdef, hsome] using this
  · have h2' := h2
    simp only [is_any_api_configured, Bool.or_eq_false_iff] at h2'
    obtain ⟨⟨⟨hs, htp⟩, hd⟩, ho⟩ := h2'
    have hdef : defaultUseSample env2 = true := by
      simp [defaultUseSample, h2]
    have hsample : (main_load env2 o2).trades = generate_trades 100 ∧
        (main_load env2 o2).journals = generate_journals (generate_trades 100) ∧
        Msg.info "Loading sample data..." ∈ (main_load env2 o2).msgs := by
      cases sc : o2.sample_csv <;>
        simp [main_load, hdef, load_data, sc]
    refine ⟨hsample.1, hsample.2.1, hsample.2.2, ?_⟩
    have hv : (validate env2).isEmpty = false := by
      simp [validate, hs, htp, hd, ho]
    simp [mainMessages, hv]

theorem credentials_rows_or_sample_witness :
    (is_supabase_configured envAll = true ∧ is_any_api_configured envNone = false) ∧
    (main_load envNone oEmpty).trades = generate_trades 100 :=
  ⟨⟨by decide, by decide⟩,
   (credentials_rows_or_sample envAll envNone oOne oEmpty [⟨0, "MES"⟩] [⟨0, "note"⟩]
      (by decide) rfl rfl (by decide)).2.1⟩

/-- C7 counterexample: when a Streamlit secrets store exists, the second
entry point reads the configuration values from it and not from the
environment variables — here every value used is "from-secrets" while the
environment holds "from-env" — so environment variables are not the
source of configuration in every run. -/
theorem env_vars_sole_source_cex :
    resolveConfig (some secretsConst) envConst
      = .ok (some "from-secrets", some "from-secrets", some "from-secrets") ∧
    envConst "SUPABASE_URL" = some "from-env" ∧
    (some "from-secrets" : Option String) ≠ some "from-env" := by
  exact ⟨rfl, rfl, by decide⟩

/-- C7 amended: environment variables (populated from a .env-style file)
are the fallback configuration source: when no Streamlit secrets store
exists, every configuration value used is the environment variable; when
a secrets store exists, its values take precedence over the
environment. -/
theorem env_fallback_secrets_precedence (envf m : String → Option String)
    (u k d : String)
    (h1 : m "SUPABASE_URL" = some u) (h2 : m "SUPABASE_KEY" = some k)
    (h3 : m "DATABENTO_API_KEY" = some d) :
    resolveConfig none envf
      = .ok (envf "SUPABASE_URL", envf "SUPABASE_KEY", envf "DATABENTO_API_KEY") ∧
    resolveConfig (some m) envf = .ok (some u, some k, some d) := by
  exact ⟨rfl, by simp [resolveConfig, h1, h2, h3]⟩

theorem env_fallback_secrets_precedence_witness :
    (secretsConst "SUPABASE_URL" = some "from-secrets") ∧
    resolveConfig (some secretsConst) envConst
      = .ok (some "from-secrets", some "from-secrets", some "from-secrets") :=
  ⟨rfl,
   (env_fallback_secrets_precedence envConst secretsConst
      "from-secrets" "from-secrets" "from-secrets" rfl rfl rfl).2⟩

end Phase2
